import Mathlib

/-
  Verification of the QRloginFront credential-lifecycle and QR-scan core.

  The definitions below are a shallow embedding of the TypeScript source:
  - `src/services/authService.ts`   (AuthService: storage, refresh, fetch wrapper)
  - `src/components/MobileLogin.tsx` (handleQrApproval)
  - `src/components/QrScanner.tsx`   (decode callback / challenge classification)
  - `src/components/OrinIdScanner.tsx` and its variant (parseOrinId)

  localStorage is modelled as a four-field record (the code touches exactly
  the keys accessToken, refreshToken, orinId, tokenExpiry); timestamps are
  integers (epoch milliseconds); network and timer effects are modelled by
  explicit oracle inputs and result records.
-/

namespace QRLogin

/-- Token response shape returned by the login / refresh endpoints
(`interface TokenResponse` in authService.ts).  `orinId` is optional. -/
structure TokenResponse where
  accessToken : String
  refreshToken : String
  orinId : Option String
  accessTokenExpiresIn : Int
  refreshTokenExpiresIn : Int
deriving DecidableEq

/-- The four localStorage keys the service reads and writes.  `none` models
an absent key. `tokenExpiry` is stored as a stringified integer in the code;
we keep the parsed integer. -/
structure Store where
  accessToken : Option String
  refreshToken : Option String
  orinId : Option String
  tokenExpiry : Option Int
deriving DecidableEq

/-- JavaScript truthiness of an optional string: absent (`undefined`) and
the empty string are falsy. -/
def jsTruthyStr : Option String → Bool
  | none => false
  | some s => !(s == "")

/-- Model of `clearAuth()`: removes all four keys. -/
def clearAuth (_st : Store) : Store :=
  ⟨none, none, none, none⟩

/-- Model of `setTokenExpiry(expiresIn)`: stores `Date.now() + expiresIn`
under `tokenExpiry`. -/
def setTokenExpiry (st : Store) (now expiresIn : Int) : Store :=
  { st with tokenExpiry := some (now + expiresIn) }

/-- Model of `storeTokens(tokens)`: always writes `accessToken` and
`refreshToken`; writes `orinId` only when `tokens.orinId` is truthy
(`if (tokens.orinId)` in the source); then sets the expiry from
`accessTokenExpiresIn`.  (The source then calls `scheduleTokenRefresh()`,
modelled separately by `scheduleTokenRefresh` below.) -/
def storeTokens (st : Store) (now : Int) (t : TokenResponse) : Store :=
  let st1 : Store := { st with accessToken := some t.accessToken,
                               refreshToken := some t.refreshToken }
  let st2 : Store := if jsTruthyStr t.orinId then { st1 with orinId := t.orinId } else st1
  setTokenExpiry st2 now t.accessTokenExpiresIn

/-- Outcome of `scheduleTokenRefresh()`: either no expiry is stored (early
return), or the refresh is triggered immediately, or a one-shot timer is
armed to fire at an absolute time. -/
inductive Schedule where
  | noTimer : Schedule
  | immediate : Schedule
  | timerAt (t : Int) : Schedule
deriving DecidableEq

/-- Model of `scheduleTokenRefresh()`: reads the stored expiry and
early-returns on `if (!expiryTime)` — which is taken both when the key is
absent (`getTokenExpiryTime` returns `null`) and when the parsed number is
exactly `0`, since `0` is falsy; otherwise computes
`refreshTime = expiryTime - 2*60*1000` and `timeUntilRefresh = refreshTime -
Date.now()`, arms `setTimeout(…, timeUntilRefresh)` when positive (firing at
`now + timeUntilRefresh`), and otherwise calls `refreshAccessToken()` at
once. -/
def scheduleTokenRefresh (st : Store) (now : Int) : Schedule :=
  match st.tokenExpiry with
  | none => Schedule.noTimer
  | some expiryTime =>
    if expiryTime = 0 then Schedule.noTimer
    else
      let refreshTime := expiryTime - 2 * 60 * 1000
      let timeUntilRefresh := refreshTime - now
      if timeUntilRefresh > 0 then Schedule.timerAt (now + timeUntilRefresh)
      else Schedule.immediate

/-- Absolute time at which a scheduled refresh fires: `now` for an immediate
trigger, the armed instant for a timer, nothing when no timer was armed. -/
def Schedule.fireTime : Schedule → Int → Option Int
  | Schedule.noTimer, _ => none
  | Schedule.immediate, now => some now
  | Schedule.timerAt t, _ => some t

/-- Model of `isAuthenticated()`: requires a truthy access token and a truthy
stored expiry (`!token || !expiryTime` in the source, so `""` and `0` fail),
and `Date.now() < expiryTime`. -/
def isAuthenticated (st : Store) (now : Int) : Bool :=
  match st.accessToken, st.tokenExpiry with
  | some token, some expiryTime =>
    if token = "" ∨ expiryTime = 0 then false
    else decide (now < expiryTime)
  | _, _ => false

/-- State of the AuthService singleton relevant to refresh deduplication:
the localStorage view plus the `refreshPromise` in-flight slot.  An in-flight
attempt is identified by a number standing for the pending promise object. -/
structure AuthState where
  store : Store
  refreshPromise : Option Nat
deriving DecidableEq

/-- Synchronous result of calling `refreshAccessToken()`. -/
inductive RefreshStart where
  | joined (a : Nat) : RefreshStart
  | started (a : Nat) : RefreshStart
  | noRefreshToken : RefreshStart
deriving DecidableEq

/-- What a call to `refreshAccessToken()` does before any network response
arrives: the attempt it returns, the successor state, how many network
requests it issued, and whether it read the stored refresh token. -/
structure RefreshStartOut where
  result : RefreshStart
  state : AuthState
  networkCalls : Nat
  readStoredRefreshToken : Bool
deriving DecidableEq

/-- Model of the synchronous part of `refreshAccessToken()`: if
`this.refreshPromise` is set it is returned as-is (before `getRefreshToken()`
is ever called and with no fetch); otherwise, with no stored refresh token it
throws, and with one it issues the single fetch and records the new promise
`fresh` in the slot. -/
def refreshAccessTokenStart (st : AuthState) (fresh : Nat) : RefreshStartOut :=
  match st.refreshPromise with
  | some a => ⟨RefreshStart.joined a, st, 0, false⟩
  | none =>
    match st.store.refreshToken with
    | none => ⟨RefreshStart.noRefreshToken, st, 0, true⟩
    | some _ => ⟨RefreshStart.started fresh, { st with refreshPromise := some fresh }, 1, true⟩

/-- Model of the settlement of an in-flight refresh: on success (`some t`)
the `.then` handler stores the new tokens; in both cases the `.finally`
handler resets `this.refreshPromise` to `null`. -/
def refreshAccessTokenSettle (st : AuthState) (now : Int)
    (outcome : Option TokenResponse) : AuthState :=
  match outcome with
  | some t => { store := storeTokens st.store now t, refreshPromise := none }
  | none => { st with refreshPromise := none }

/-- Result of `authenticatedFetch`: a returned response (with its status) or
one of the three thrown errors. -/
inductive FetchResult where
  | ok (status : Nat) : FetchResult
  | authRequired : FetchResult
  | authFailed : FetchResult
  | noAccessToken : FetchResult
deriving DecidableEq

/-- Oracle for the external effects one `authenticatedFetch` call can
trigger: the settled outcome of a pre-flight `refreshAccessToken()` (run only
when `isAuthenticated()` is false), the status of the first fetch, the
settled outcome of the refresh run on a 401, and the status of the retried
fetch.  `none` for a refresh outcome means that refresh rejected. -/
structure FetchWorld where
  refreshPre : Option TokenResponse
  status1 : Nat
  refreshOn401 : Option TokenResponse
  status2 : Nat
deriving DecidableEq

/-- Result record for `authenticatedFetch`: the outcome, the final store, and
the bearer token of each request actually issued, in order. -/
structure FetchOut where
  result : FetchResult
  store : Store
  requests : List (Option String)
deriving DecidableEq

/-- Model of `authenticatedFetch(url, options)`.  Mirrors the source: when
`isAuthenticated()` fails, awaits a refresh, clearing auth and throwing
`Authentication required` if it rejects; throws when the access token is
falsy; issues the request with the bearer header; on a 401 awaits one more
refresh and either retries once with `getAccessToken()` (returning that
second response unconditionally) or, if that refresh rejects, clears auth and
throws `Authentication failed`.  Non-401 responses are returned as-is. -/
def authenticatedFetch (st : Store) (now : Int) (w : FetchWorld) : FetchOut :=
  match (if isAuthenticated st now then some st
         else match w.refreshPre with
              | some t => some (storeTokens st now t)
              | none => none) with
  | none => ⟨FetchResult.authRequired, clearAuth st, []⟩
  | some st1 =>
    match st1.accessToken with
    | none => ⟨FetchResult.noAccessToken, st1, []⟩
    | some tok =>
      if tok = "" then ⟨FetchResult.noAccessToken, st1, []⟩
      else if w.status1 = 401 then
        match w.refreshOn401 with
        | some t =>
          let st2 := storeTokens st1 now t
          ⟨FetchResult.ok w.status2, st2, [some tok, st2.accessToken]⟩
        | none => ⟨FetchResult.authFailed, clearAuth st1, [some tok]⟩
      else ⟨FetchResult.ok w.status1, st1, [some tok]⟩

/-- JSON values as produced by `JSON.parse` (numbers restricted to the
integers, which suffices for the payloads at hand). -/
inductive Json where
  | null : Json
  | bool (b : Bool) : Json
  | num (n : Int) : Json
  | str (s : String) : Json
  | arr (elems : List Json) : Json
  | obj (fields : List (String × Json)) : Json

/-- Property access `j[k]` on a parsed value: defined only on objects, with
the JavaScript last-duplicate-wins rule; `none` models `undefined`. -/
def Json.getField (j : Json) (k : String) : Option Json :=
  match j with
  | Json.obj fields =>
    List.foldl (fun acc p => if p.1 = k then some p.2 else acc) none fields
  | _ => none

/-- Whether the field is present at all on the parsed value. -/
def Json.hasField (j : Json) (k : String) : Bool :=
  (j.getField k).isSome

/-- JavaScript truthiness of a property-access result: `undefined`, `null`,
`false`, `0` and `""` are falsy; objects and arrays are truthy. -/
def jsTruthy : Option Json → Bool
  | none => false
  | some Json.null => false
  | some (Json.bool b) => b
  | some (Json.num n) => !(n == 0)
  | some (Json.str s) => !(s == "")
  | some (Json.arr _) => true
  | some (Json.obj _) => true

/-- Outcome of classifying one decoded QR text in the scanner's decode
callback. -/
inductive ChallengeResult where
  | challenge (challengeId nonce : Json) : ChallengeResult
  | invalid : ChallengeResult

/-- Model of the decode callback in QrScanner.tsx (and `handleScanResult` in
its variant): `JSON.parse(text)` is modelled by its result (`none` when the
parse throws, in which case the surrounding `catch` swallows the error); on a
parsed value the guard is `if (qrData.challengeId && qrData.nonce)` — a
truthiness test on both property accesses — delivering the pair on success
and doing nothing (treating the text as invalid) otherwise.  A `TypeError`
from property access on `null` is also caught by the same `catch`, so the
classification is total and never raises. -/
def classifyChallenge (parsed : Option Json) : ChallengeResult :=
  match parsed with
  | none => ChallengeResult.invalid
  | some (Json.null) => ChallengeResult.invalid
  | some j =>
    let c := j.getField "challengeId"
    let n := j.getField "nonce"
    if jsTruthy c && jsTruthy n then
      ChallengeResult.challenge (c.getD Json.null) (n.getD Json.null)
    else ChallengeResult.invalid

/-- Challenge payload as consumed by `handleQrApproval` (it reads
`qrData.challengeId` and `qrData.nonce`). -/
structure QrPayload where
  challengeId : String
  nonce : String
deriving DecidableEq

/-- One outbound approval request as built by `handleQrApproval`:
`viaAuthFetch` records whether it went through
`authService.authenticatedFetch` (true) or a plain `fetch` (false). -/
structure ApprovalRequest where
  url : String
  bearer : String
  viaAuthFetch : Bool
  challengeId : String
  nonce : String
deriving DecidableEq

/-- Outcome of the approval round trip: 2xx, non-2xx with the server's error
message, or a transport error (`fetch` rejected). -/
inductive ApprovalOutcome where
  | ok : ApprovalOutcome
  | httpError (msg : String) : ApprovalOutcome
  | transportError : ApprovalOutcome
deriving DecidableEq

/-- Combined state of the scan/approval pipeline: `userToken` and
`showScanner` are MobileLogin component state; `captureActive` models whether
the QrScanner's code reader is still decoding (it is reset by the scanner
before a payload is delivered). -/
structure ScanUiState where
  userToken : String
  showScanner : Bool
  captureActive : Bool
deriving DecidableEq

/-- Model of `handleQrApproval(qrData)` in MobileLogin.tsx: issues exactly
one plain `fetch` to `/api/qr/approve` with `Authorization: Bearer
${userToken}` (the component-state token) and body
`{challengeId, nonce}`; on 2xx shows a success toast and closes the scanner
panel; on non-2xx shows the server message; on a transport error shows a
generic message.  Returns the next state, the requests issued and the toast
text. -/
def handleQrApproval (st : ScanUiState) (qrData : QrPayload)
    (resp : ApprovalOutcome) : ScanUiState × List ApprovalRequest × String :=
  let req : ApprovalRequest :=
    ⟨"/api/qr/approve", st.userToken, false, qrData.challengeId, qrData.nonce⟩
  match resp with
  | ApprovalOutcome.ok =>
    ({ st with showScanner := false }, [req], "Desktop login approved successfully!")
  | ApprovalOutcome.httpError msg =>
    (st, [req], "Failed to approve login: " ++ msg)
  | ApprovalOutcome.transportError =>
    (st, [req], "Error approving login. Please try again.")

/-- Model of the scanner's delivery step: QrScanner.tsx calls
`codeReader.reset()` before invoking `onScanSuccess`, so the capture is
closed at the moment the payload is handed over. -/
def deliverScan (st : ScanUiState) : ScanUiState :=
  { st with captureActive := false }

/-- One full validated-scan-then-approve round: the scanner delivers the
payload (closing the capture) and `handleQrApproval` runs against the
response. -/
def scanApprovalFlow (st : ScanUiState) (qrData : QrPayload)
    (resp : ApprovalOutcome) : ScanUiState × List ApprovalRequest × String :=
  handleQrApproval (deliverScan st) qrData resp

/-- ASCII lowercasing of one character, as `String.prototype.toLowerCase`
acts on the ASCII range (the only range the identifier grammar admits). -/
def toLowerCh (c : Char) : Char :=
  if c.toNat ≥ 65 && c.toNat ≤ 90 then Char.ofNat (c.toNat + 32) else c

/-- Decimal digit test, as the `\d` class over ASCII. -/
def isDigitCh (c : Char) : Bool :=
  c.toNat ≥ 48 && c.toNat ≤ 57

/-- Character class `[a-zA-Z0-9-_]` of the identifier regex. -/
def isOrinCh (c : Char) : Bool :=
  (c.toNat ≥ 97 && c.toNat ≤ 122) || (c.toNat ≥ 65 && c.toNat ≤ 90) ||
  isDigitCh c || c == '-' || c == '_'

/-- Whitespace removed by `String.prototype.trim` (the ASCII part). -/
def isWsCh (c : Char) : Bool :=
  c == ' ' || c == '\t' || c == '\n' || c == '\r' || c == '\x0b' || c == '\x0c'

/-- Model of `text.trim()` on the character list. -/
def trimList (cs : List Char) : List Char :=
  ((cs.dropWhile isWsCh).reverse.dropWhile isWsCh).reverse

/-- Test for the regex `^\d{13}$`. -/
def isDigit13 (cs : List Char) : Bool :=
  cs.length == 13 && cs.all isDigitCh

/-- Test for `cleanText.toLowerCase().startsWith('orin')`. -/
def startsWithOrinCI (cs : List Char) : Bool :=
  match cs with
  | c1 :: c2 :: c3 :: c4 :: _ =>
    toLowerCh c1 == 'o' && toLowerCh c2 == 'r' && toLowerCh c3 == 'i' && toLowerCh c4 == 'n'
  | _ => false

/-- Test for the regex `^[a-zA-Z0-9-_]+$` (nonempty). -/
def isOrinAlnum (cs : List Char) : Bool :=
  !(cs.isEmpty) && cs.all isOrinCh

/-- Test for `idPart.startsWith('-')`. -/
def startsWithHyphen (cs : List Char) : Bool :=
  match cs with
  | c :: _ => c == '-'
  | [] => false

namespace OrinIdScanner

/-- Model of `parseOrinId` in src/components/OrinIdScanner.tsx, on character
lists: trims, maps a 13-digit numeric to `orin-<digits>`; on an `orin`-
prefixed text (case-insensitive) normalizes to a lowercase `orin-…` form
(keeping the leading `orin`); otherwise accepts any `[a-zA-Z0-9-_]+` text
as-is; else rejects. -/
def parseOrinIdList (cs : List Char) : Option (List Char) :=
  let cleanText := trimList cs
  if isDigit13 cleanText then
    some ('o' :: 'r' :: 'i' :: 'n' :: '-' :: cleanText)
  else if startsWithOrinCI cleanText then
    let idPart := cleanText.drop 4
    if startsWithHyphen idPart then some (cleanText.map toLowerCh)
    else some (('o' :: 'r' :: 'i' :: 'n' :: '-' :: idPart).map toLowerCh)
  else if isOrinAlnum cleanText then some cleanText
  else none

/-- String-level wrapper for the OrinIdScanner.tsx variant. -/
def parseOrinId (s : String) : Option String :=
  (parseOrinIdList s.toList).map fun cs => String.mk cs

end OrinIdScanner

namespace OrinIdScannerB

/-- Model of the `parseOrinId` variant in the unnamed scanner source
(src/unnamed/part_000): trims, returns a 13-digit numeric unchanged; on an
`orin`-prefixed text (case-insensitive) returns the remainder after the
prefix, also dropping one following hyphen; otherwise accepts any
`[a-zA-Z0-9-_]+` text as-is; else rejects. -/
def parseOrinIdList (cs : List Char) : Option (List Char) :=
  let cleanText := trimList cs
  if isDigit13 cleanText then
    some cleanText
  else if startsWithOrinCI cleanText then
    let idPart := cleanText.drop 4
    if startsWithHyphen idPart then some (idPart.drop 1)
    else some idPart
  else if isOrinAlnum cleanText then some cleanText
  else none

/-- String-level wrapper for the part_000 variant. -/
def parseOrinId (s : String) : Option String :=
  (parseOrinIdList s.toList).map fun cs => String.mk cs

end OrinIdScannerB

/-- Remainder after a leading hyphen, used to state what the stripping
variant produces for an `orin`-prefixed input. -/
def stripHyphen (cs : List Char) : List Char :=
  if startsWithHyphen cs then cs.drop 1 else cs

/- ### Helper lemmas shared by the claim theorems -/

/-- Helper: `storeTokens` always sets the expiry to `now + expiresIn`. -/
theorem storeTokens_tokenExpiry (st : Store) (now : Int) (t : TokenResponse) :
    (storeTokens st now t).tokenExpiry = some (now + t.accessTokenExpiresIn) := by
  unfold storeTokens setTokenExpiry
  split <;> rfl

/-- Helper: `storeTokens` always sets the access token. -/
theorem storeTokens_accessToken (st : Store) (now : Int) (t : TokenResponse) :
    (storeTokens st now t).accessToken = some t.accessToken := by
  unfold storeTokens setTokenExpiry
  split <;> rfl

/-- Helper: `storeTokens` always sets the refresh token. -/
theorem storeTokens_refreshToken (st : Store) (now : Int) (t : TokenResponse) :
    (storeTokens st now t).refreshToken = some t.refreshToken := by
  unfold storeTokens setTokenExpiry
  split <;> rfl

/-- Helper: a true `isAuthenticated` check exposes a nonempty access token
and an unexpired stored expiry. -/
theorem isAuthenticated_elim (st : Store) (now : Int)
    (h : isAuthenticated st now = true) :
    ∃ tok e, st.accessToken = some tok ∧ tok ≠ "" ∧
      st.tokenExpiry = some e ∧ now < e := by
  unfold isAuthenticated at h
  cases hA : st.accessToken with
  | none => rw [hA] at h; cases h
  | some tok =>
    cases hE : st.tokenExpiry with
    | none => rw [hA, hE] at h; cases h
    | some e =>
      rw [hA, hE] at h
      replace h : (if tok = "" ∨ e = 0 then false else decide (now < e)) = true := h
      by_cases hc : tok = "" ∨ e = 0
      · rw [if_pos hc] at h; cases h
      · rw [if_neg hc] at h
        exact ⟨tok, e, rfl, fun hbad => hc (Or.inl hbad), rfl, of_decide_eq_true h⟩

/-- Helper: unfolding of the case-insensitive `orin` prefix test. -/
theorem startsWithOrinCI_elim (cs : List Char) (h : startsWithOrinCI cs = true) :
    ∃ c1 c2 c3 c4 rest, cs = c1 :: c2 :: c3 :: c4 :: rest ∧
      toLowerCh c1 = 'o' ∧ toLowerCh c2 = 'r' ∧ toLowerCh c3 = 'i' ∧
      toLowerCh c4 = 'n' := by
  match cs with
  | [] => exact absurd h (by simp [startsWithOrinCI])
  | [c1] => exact absurd h (by simp [startsWithOrinCI])
  | [c1, c2] => exact absurd h (by simp [startsWithOrinCI])
  | [c1, c2, c3] => exact absurd h (by simp [startsWithOrinCI])
  | c1 :: c2 :: c3 :: c4 :: rest =>
    simp only [startsWithOrinCI, Bool.and_eq_true, beq_iff_eq] at h
    exact ⟨c1, c2, c3, c4, rest, rfl, h.1.1.1, h.1.1.2, h.1.2, h.2⟩

/-- Helper: a digit is unchanged by ASCII lowercasing. -/
theorem toLowerCh_of_digit (c : Char) (h : isDigitCh c = true) :
    toLowerCh c = c := by
  simp only [isDigitCh, Bool.and_eq_true, decide_eq_true_eq] at h
  unfold toLowerCh
  rw [if_neg]
  simp only [Bool.and_eq_true, decide_eq_true_eq]
  omega

/-- Helper: a text whose lowercase form starts with `orin` cannot be 13
digits (its first character is not a digit). -/
theorem isDigit13_false_of_orin (cs : List Char)
    (h : startsWithOrinCI cs = true) : isDigit13 cs = false := by
  obtain ⟨c1, c2, c3, c4, rest, rfl, h1, _, _, _⟩ := startsWithOrinCI_elim cs h
  unfold isDigit13
  cases hd : isDigitCh c1 with
  | false => simp [hd]
  | true =>
    exfalso
    have hfix := toLowerCh_of_digit c1 hd
    rw [hfix] at h1
    subst h1
    simp [isDigitCh] at hd

/- ### Claim theorems -/

/-- C10: `storeTokens` always writes accessToken, refreshToken and
tokenExpiry; it writes the orinId key only when the token response carries a
(truthy) orinId, it never removes a stored orinId, and for a response lacking
an orinId the previously stored value is left unchanged. -/
theorem storeTokens_writes_and_orinId_frame (st : Store) (now : Int)
    (t : TokenResponse) :
    (storeTokens st now t).accessToken = some t.accessToken ∧
    (storeTokens st now t).refreshToken = some t.refreshToken ∧
    (storeTokens st now t).tokenExpiry = some (now + t.accessTokenExpiresIn) ∧
    (t.orinId = none → (storeTokens st now t).orinId = st.orinId) ∧
    ((storeTokens st now t).orinId ≠ st.orinId →
      ∃ o, t.orinId = some o ∧ (storeTokens st now t).orinId = some o) ∧
    (st.orinId ≠ none → (storeTokens st now t).orinId ≠ none) := by
  refine ⟨storeTokens_accessToken st now t, storeTokens_refreshToken st now t,
    storeTokens_tokenExpiry st now t, ?_, ?_, ?_⟩
  · intro hnone
    unfold storeTokens setTokenExpiry
    rw [hnone]
    rfl
  · intro hchanged
    unfold storeTokens setTokenExpiry at hchanged ⊢
    cases ho : t.orinId with
    | none => simp [ho, jsTruthyStr] at hchanged
    | some o =>
      by_cases he : o = ""
      · subst he
        simp [ho, jsTruthyStr] at hchanged
      · refine ⟨o, rfl, ?_⟩
        simp [ho, jsTruthyStr, he]
  · intro hsome
    unfold storeTokens setTokenExpiry
    cases ho : t.orinId with
    | none => simpa [ho, jsTruthyStr] using hsome
    | some o =>
      by_cases he : o = ""
      · subst he; simpa [ho, jsTruthyStr] using hsome
      · simp [ho, jsTruthyStr, he]

/-- Witness for C10 at a concrete input: a refresh response without an orinId
leaves the stored orinId in place. -/
theorem storeTokens_writes_and_orinId_frame_witness :
    (storeTokens ⟨none, none, some "keep", none⟩ 0 ⟨"a", "r", none, 5, 9⟩).orinId
      = some "keep" := by
  have h := storeTokens_writes_and_orinId_frame ⟨none, none, some "keep", none⟩ 0
    ⟨"a", "r", none, 5, 9⟩
  exact h.2.2.2.1 rfl

/-- C8 counterexample: a successful refresh whose response carries a short
`accessTokenExpiresIn` stores an expiry strictly below the previously stored
one, so the expiry is not monotonic non-decreasing across refreshes. -/
theorem refresh_can_decrease_expiry :
    (⟨some "a", some "r", none, some 1000000⟩ : Store).tokenExpiry = some 1000000 ∧
    (storeTokens ⟨some "a", some "r", none, some 1000000⟩ 10
      ⟨"a2", "r2", none, 5, 99⟩).tokenExpiry = some 15 ∧
    ¬ ((1000000 : Int) ≤ 15) := ⟨rfl, rfl, by decide⟩

/-- C8 amended: completing a successful refresh stores
`E_new = now + accessTokenExpiresIn`, and `E_new ≥ E_old` holds exactly when
the response lifetime covers the old credential's remaining time
(`accessTokenExpiresIn ≥ E_old - now`); the code enforces nothing more. -/
theorem storeTokens_expiry_characterization (st : Store) (now : Int)
    (t : TokenResponse) (eOld : Int) (_h : st.tokenExpiry = some eOld) :
    (storeTokens st now t).tokenExpiry = some (now + t.accessTokenExpiresIn) ∧
    (eOld ≤ now + t.accessTokenExpiresIn ↔ eOld - now ≤ t.accessTokenExpiresIn) := by
  exact ⟨storeTokens_tokenExpiry st now t, by omega⟩

/-- Witness for C8's amended theorem at a concrete input. -/
theorem storeTokens_expiry_characterization_witness :
    (⟨some "a", some "r", none, some 100⟩ : Store).tokenExpiry = some 100 ∧
    ((storeTokens ⟨some "a", some "r", none, some 100⟩ 50
        ⟨"a2", "r2", none, 60, 99⟩).tokenExpiry = some (50 + 60) ∧
      ((100 : Int) ≤ 50 + 60 ↔ (100 : Int) - 50 ≤ 60)) :=
  ⟨rfl, storeTokens_expiry_characterization ⟨some "a", some "r", none, some 100⟩ 50
    ⟨"a2", "r2", none, 60, 99⟩ 100 rfl⟩

/-- C9: after storing a credential with positive lifetime at a non-negative
clock (expiry `E = now + expiresIn`, so `E > 0` and the falsy-zero early
return of `if (!expiryTime)` is not taken), `scheduleTokenRefresh` computes
`refreshAt = E - 2*60*1000`, arms a one-shot timer for `refreshAt` when it
is in the future and otherwise triggers the refresh immediately; in both
cases the refresh fires at or after `E - skew` and strictly before `E`. -/
theorem scheduleRefresh_fires_in_window (st : Store) (now : Int)
    (t : TokenResponse) (hpos : 0 < t.accessTokenExpiresIn) (hnow : 0 ≤ now) :
    ∃ f, (scheduleTokenRefresh (storeTokens st now t) now).fireTime now = some f ∧
      (storeTokens st now t).tokenExpiry = some (now + t.accessTokenExpiresIn) ∧
      now + t.accessTokenExpiresIn - 2 * 60 * 1000 ≤ f ∧
      f < now + t.accessTokenExpiresIn := by
  have hE := storeTokens_tokenExpiry st now t
  have hne : ¬(now + t.accessTokenExpiresIn = 0) := by omega
  unfold scheduleTokenRefresh
  rw [hE]
  simp only [if_neg hne]
  by_cases hc : now + t.accessTokenExpiresIn - 2 * 60 * 1000 - now > 0
  · refine ⟨now + (now + t.accessTokenExpiresIn - 2 * 60 * 1000 - now), ?_,
      trivial, by omega, by omega⟩
    simp only [if_pos hc, Schedule.fireTime]
  · refine ⟨now, ?_, trivial, by omega, by omega⟩
    simp only [if_neg hc, Schedule.fireTime]

/-- Witness for C9 at a concrete input (5-minute lifetime, clock at 0, timer
armed at `E - 2 minutes`). -/
theorem scheduleRefresh_fires_in_window_witness :
    (0 : Int) < 300000 ∧ (0 : Int) ≤ 0 ∧
    (∃ f, (scheduleTokenRefresh
        (storeTokens ⟨none, none, none, none⟩ 0 ⟨"a", "r", none, 300000, 9⟩)
        0).fireTime 0 = some f ∧
      (storeTokens ⟨none, none, none, none⟩ 0
        ⟨"a", "r", none, 300000, 9⟩).tokenExpiry = some (0 + 300000) ∧
      (0 : Int) + 300000 - 2 * 60 * 1000 ≤ f ∧ f < 0 + 300000) :=
  ⟨by decide, by decide, scheduleRefresh_fires_in_window ⟨none, none, none, none⟩ 0
    ⟨"a", "r", none, 300000, 9⟩ (by decide) (by decide)⟩

/-- C3: while a refresh attempt is in flight, `refreshAccessToken()` returns
that same pending attempt, leaves the state unchanged, issues no network call
and never reads the stored refresh token; settlement (success or failure)
clears the in-flight slot, after which a new call either starts a fresh
attempt or fails for a missing refresh token — it never joins the old one. -/
theorem refresh_dedup_and_settle (st : AuthState) (a fresh : Nat)
    (h : st.refreshPromise = some a) :
    refreshAccessTokenStart st fresh =
      ⟨RefreshStart.joined a, st, 0, false⟩ ∧
    (∀ now outcome,
      (refreshAccessTokenSettle st now outcome).refreshPromise = none) ∧
    (∀ now outcome fresh2,
      (refreshAccessTokenStart (refreshAccessTokenSettle st now outcome)
          fresh2).result = RefreshStart.started fresh2 ∨
      (refreshAccessTokenStart (refreshAccessTokenSettle st now outcome)
          fresh2).result = RefreshStart.noRefreshToken) := by
  refine ⟨?_, ?_, ?_⟩
  · unfold refreshAccessTokenStart
    rw [h]
  · intro now outcome
    cases outcome <;> rfl
  · intro now outcome fresh2
    unfold refreshAccessTokenSettle refreshAccessTokenStart
    cases outcome with
    | none =>
      cases hrt : st.store.refreshToken <;> simp [hrt]
    | some t =>
      cases hrt : (storeTokens st.store now t).refreshToken <;> simp [hrt]

/-- Witness for C3 at a concrete in-flight state. -/
theorem refresh_dedup_and_settle_witness :
    (⟨⟨some "a", some "r", none, some 5⟩, some 7⟩ : AuthState).refreshPromise
      = some 7 ∧
    (refreshAccessTokenStart ⟨⟨some "a", some "r", none, some 5⟩, some 7⟩ 3 =
      ⟨RefreshStart.joined 7, ⟨⟨some "a", some "r", none, some 5⟩, some 7⟩, 0, false⟩ ∧
    (∀ now outcome,
      (refreshAccessTokenSettle ⟨⟨some "a", some "r", none, some 5⟩, some 7⟩
        now outcome).refreshPromise = none) ∧
    (∀ now outcome fresh2,
      (refreshAccessTokenStart
          (refreshAccessTokenSettle ⟨⟨some "a", some "r", none, some 5⟩, some 7⟩
            now outcome) fresh2).result = RefreshStart.started fresh2 ∨
      (refreshAccessTokenStart
          (refreshAccessTokenSettle ⟨⟨some "a", some "r", none, some 5⟩, some 7⟩
            now outcome) fresh2).result = RefreshStart.noRefreshToken)) :=
  ⟨rfl, refresh_dedup_and_settle ⟨⟨some "a", some "r", none, some 5⟩, some 7⟩ 7 3 rfl⟩

/-- C1 counterexample: with a valid credential, a first 401, a successful
refresh and a second 401 on the retry, `authenticatedFetch` returns the
retried 401 response as-is — it does not clear the four keys and does not
throw an authentication error. -/
theorem authFetch_second401_not_cleared :
    authenticatedFetch ⟨some "a", some "r", none, some 100⟩ 0
        ⟨none, 401, some ⟨"a2", "r2", none, 60000, 99⟩, 401⟩ =
      ⟨FetchResult.ok 401, ⟨some "a2", some "r2", none, some 60000⟩,
        [some "a", some "a2"]⟩ ∧
    FetchResult.ok 401 ≠ FetchResult.authRequired ∧
    FetchResult.ok 401 ≠ FetchResult.authFailed ∧
    (⟨some "a2", some "r2", none, some 60000⟩ : Store) ≠
      clearAuth ⟨some "a2", some "r2", none, some 60000⟩ :=
  ⟨rfl, by decide, by decide, by decide⟩

/-- C1 amended: on a valid credential whose first response is 401,
`authenticatedFetch` performs exactly one refresh; if that refresh succeeds
it retries exactly once with the newly stored token and returns the retried
response unmodified — even when it is again 401, with nothing cleared; if
the refresh fails it clears all four keys and throws the authentication
failure.  At most two requests are ever issued. -/
theorem authFetch_single_retry (st : Store) (now : Int) (w : FetchWorld)
    (hauth : isAuthenticated st now = true) (h401 : w.status1 = 401) :
    (authenticatedFetch st now w).requests.length ≤ 2 ∧
    (∀ t, w.refreshOn401 = some t →
      (authenticatedFetch st now w).result = FetchResult.ok w.status2 ∧
      (authenticatedFetch st now w).requests =
        [st.accessToken, some t.accessToken] ∧
      (authenticatedFetch st now w).store = storeTokens st now t) ∧
    (w.refreshOn401 = none →
      (authenticatedFetch st now w).result = FetchResult.authFailed ∧
      (authenticatedFetch st now w).store = clearAuth st ∧
      (authenticatedFetch st now w).requests.length = 1) := by
  obtain ⟨tok, e, hA, htok, hE, hlt⟩ := isAuthenticated_elim st now hauth
  cases hro : w.refreshOn401 with
  | none =>
    have heq : authenticatedFetch st now w =
        ⟨FetchResult.authFailed, clearAuth st, [some tok]⟩ := by
      unfold authenticatedFetch
      rw [if_pos hauth]
      simp [hA, htok, h401, hro]
    rw [heq]
    refine ⟨by simp, ?_, ?_⟩
    · intro t ht
      cases ht
    · intro _
      exact ⟨rfl, rfl, rfl⟩
  | some t =>
    have heq : authenticatedFetch st now w =
        ⟨FetchResult.ok w.status2, storeTokens st now t,
          [some tok, some t.accessToken]⟩ := by
      unfold authenticatedFetch
      rw [if_pos hauth]
      simp [hA, htok, h401, hro, storeTokens_accessToken]
    rw [heq]
    refine ⟨by simp, ?_, ?_⟩
    · intro t' ht'
      cases ht'
      exact ⟨rfl, by rw [hA], rfl⟩
    · intro hbad
      cases hbad

/-- Witness for C1's amended theorem at a concrete input: valid credential,
first response 401, refresh succeeds, retry also 401. -/
theorem authFetch_single_retry_witness :
    isAuthenticated ⟨some "a", some "r", none, some 100⟩ 0 = true ∧
    (⟨none, 401, some ⟨"a2", "r2", none, 60000, 99⟩, 401⟩ : FetchWorld).status1 = 401 ∧
    ((authenticatedFetch ⟨some "a", some "r", none, some 100⟩ 0
        ⟨none, 401, some ⟨"a2", "r2", none, 60000, 99⟩, 401⟩).requests.length ≤ 2 ∧
    (∀ t, (⟨none, 401, some ⟨"a2", "r2", none, 60000, 99⟩, 401⟩ : FetchWorld).refreshOn401 = some t →
      (authenticatedFetch ⟨some "a", some "r", none, some 100⟩ 0
        ⟨none, 401, some ⟨"a2", "r2", none, 60000, 99⟩, 401⟩).result =
          FetchResult.ok (⟨none, 401, some ⟨"a2", "r2", none, 60000, 99⟩, 401⟩ : FetchWorld).status2 ∧
      (authenticatedFetch ⟨some "a", some "r", none, some 100⟩ 0
        ⟨none, 401, some ⟨"a2", "r2", none, 60000, 99⟩, 401⟩).requests =
        [(⟨some "a", some "r", none, some 100⟩ : Store).accessToken, some t.accessToken] ∧
      (authenticatedFetch ⟨some "a", some "r", none, some 100⟩ 0
        ⟨none, 401, some ⟨"a2", "r2", none, 60000, 99⟩, 401⟩).store =
        storeTokens ⟨some "a", some "r", none, some 100⟩ 0 t) ∧
    ((⟨none, 401, some ⟨"a2", "r2", none, 60000, 99⟩, 401⟩ : FetchWorld).refreshOn401 = none →
      (authenticatedFetch ⟨some "a", some "r", none, some 100⟩ 0
        ⟨none, 401, some ⟨"a2", "r2", none, 60000, 99⟩, 401⟩).result = FetchResult.authFailed ∧
      (authenticatedFetch ⟨some "a", some "r", none, some 100⟩ 0
        ⟨none, 401, some ⟨"a2", "r2", none, 60000, 99⟩, 401⟩).store =
        clearAuth ⟨some "a", some "r", none, some 100⟩ ∧
      (authenticatedFetch ⟨some "a", some "r", none, some 100⟩ 0
        ⟨none, 401, some ⟨"a2", "r2", none, 60000, 99⟩, 401⟩).requests.length = 1)) :=
  ⟨by decide, rfl, authFetch_single_retry ⟨some "a", some "r", none, some 100⟩ 0
    ⟨none, 401, some ⟨"a2", "r2", none, 60000, 99⟩, 401⟩ (by decide) rfl⟩

/-- C2 counterexample: `handleQrApproval` issues its single approval request
as a plain `fetch` (`viaAuthFetch = false`), carrying the component-state
token `"oldTok"` rather than whatever the credential store currently holds,
and even on an unauthorized-style failure it issues no further request — it
does not go through `authenticatedFetch` and inherits no refresh-on-401. -/
theorem approval_direct_fetch_cex :
    (handleQrApproval ⟨"oldTok", true, true⟩ ⟨"c1", "n1"⟩
        (ApprovalOutcome.httpError "Unauthorized")).2.1 =
      [⟨"/api/qr/approve", "oldTok", false, "c1", "n1"⟩] ∧
    ((handleQrApproval ⟨"oldTok", true, true⟩ ⟨"c1", "n1"⟩
        (ApprovalOutcome.httpError "Unauthorized")).2.1.all
      fun r => !r.viaAuthFetch) = true ∧
    (handleQrApproval ⟨"oldTok", true, true⟩ ⟨"c1", "n1"⟩
        (ApprovalOutcome.httpError "Unauthorized")).2.1.length = 1 :=
  ⟨rfl, rfl, rfl⟩

/-- C2 amended: for every delivered payload the approval call is issued
exactly once, against the approval endpoint with `{challengeId, nonce}`, but
as a direct `fetch` bearing the token captured in MobileLogin component
state — not through `authenticatedFetch`, so it does not inherit the
refresh-on-unauthorized behaviour and does not read the stored token. -/
theorem approval_issued_once_direct (st : ScanUiState) (qrData : QrPayload)
    (resp : ApprovalOutcome) :
    (handleQrApproval st qrData resp).2.1 =
      [⟨"/api/qr/approve", st.userToken, false, qrData.challengeId,
        qrData.nonce⟩] := by
  cases resp <;> rfl

/-- C4: when the approval call fails (non-2xx or transport error), the scan
session stays closed: the capture was already reset at delivery and nothing
re-opens it, the failure message is surfaced, exactly one approval request
was issued (no automatic retry), and the resulting state is `deliverScan st`
— independent of the payload, so no challenge/nonce pair is cached. -/
theorem approval_failure_leaves_scan_closed (st : ScanUiState)
    (qrData : QrPayload) (msg : String) :
    (scanApprovalFlow st qrData (ApprovalOutcome.httpError msg)).1 =
      deliverScan st ∧
    (scanApprovalFlow st qrData (ApprovalOutcome.httpError msg)).1.captureActive
      = false ∧
    (scanApprovalFlow st qrData (ApprovalOutcome.httpError msg)).2.1.length = 1 ∧
    (scanApprovalFlow st qrData (ApprovalOutcome.httpError msg)).2.2 =
      "Failed to approve login: " ++ msg ∧
    (scanApprovalFlow st qrData ApprovalOutcome.transportError).1 =
      deliverScan st ∧
    (scanApprovalFlow st qrData ApprovalOutcome.transportError).1.captureActive
      = false ∧
    (scanApprovalFlow st qrData ApprovalOutcome.transportError).2.1.length = 1 ∧
    (scanApprovalFlow st qrData ApprovalOutcome.transportError).2.2 =
      "Error approving login. Please try again." :=
  ⟨rfl, rfl, rfl, rfl, rfl, rfl, rfl, rfl⟩

/-- Helper: the part_000 variant on a trimmed 13-digit input. -/
theorem parseListB_digit (cs : List Char) (h : isDigit13 (trimList cs) = true) :
    OrinIdScannerB.parseOrinIdList cs = some (trimList cs) := by
  unfold OrinIdScannerB.parseOrinIdList
  simp [h]

/-- Helper: the OrinIdScanner.tsx variant on a trimmed 13-digit input. -/
theorem parseListA_digit (cs : List Char) (h : isDigit13 (trimList cs) = true) :
    OrinIdScanner.parseOrinIdList cs =
      some ('o' :: 'r' :: 'i' :: 'n' :: '-' :: trimList cs) := by
  unfold OrinIdScanner.parseOrinIdList
  simp [h]

/-- Helper: the part_000 variant on an `orin`-prefixed input strips the
prefix and one following hyphen. -/
theorem parseListB_orin (cs : List Char)
    (h : startsWithOrinCI (trimList cs) = true) :
    OrinIdScannerB.parseOrinIdList cs =
      some (stripHyphen ((trimList cs).drop 4)) := by
  have hd13 := isDigit13_false_of_orin _ h
  unfold OrinIdScannerB.parseOrinIdList stripHyphen
  cases hh : startsWithHyphen ((trimList cs).drop 4) <;> simp [hd13, h, hh]

/-- Helper: the OrinIdScanner.tsx variant on an `orin`-prefixed input yields
a lowercased result that still starts with `orin`. -/
theorem parseListA_orin (cs : List Char)
    (h : startsWithOrinCI (trimList cs) = true) :
    ∃ r, OrinIdScanner.parseOrinIdList cs = some r ∧
      r.take 4 = ['o', 'r', 'i', 'n'] := by
  obtain ⟨c1, c2, c3, c4, rest, heq, h1, h2, h3, h4⟩ :=
    startsWithOrinCI_elim _ h
  have hd13 := isDigit13_false_of_orin _ h
  unfold OrinIdScanner.parseOrinIdList
  cases hh : startsWithHyphen ((trimList cs).drop 4) with
  | false =>
    refine ⟨('o' :: 'r' :: 'i' :: 'n' :: '-' ::
      (trimList cs).drop 4).map toLowerCh, by simp [hd13, h, hh], ?_⟩
    simp only [List.map_cons, List.take]
    decide
  | true =>
    refine ⟨(trimList cs).map toLowerCh, by simp [hd13, h, hh], ?_⟩
    rw [heq]
    simp [h1, h2, h3, h4]

/-- C5 counterexample: the OrinIdScanner.tsx classifier does not return a
13-digit input unchanged — it prepends `orin-`. -/
theorem numericId_prefixed_cex :
    OrinIdScanner.parseOrinId "1234567890123" = some "orin-1234567890123" ∧
    some "orin-1234567890123" ≠ some "1234567890123" :=
  ⟨rfl, by decide⟩

/-- C5 amended: for every input whose trimmed form is 13 consecutive digits,
the two classifier variants disagree: the part_000 variant returns the digit
string unchanged, while the OrinIdScanner.tsx variant returns it with an
`orin-` prefix prepended. -/
theorem numericId_classification (s : String)
    (h : isDigit13 (trimList s.toList) = true) :
    OrinIdScannerB.parseOrinId s = some (String.mk (trimList s.toList)) ∧
    OrinIdScanner.parseOrinId s =
      some (String.mk ('o' :: 'r' :: 'i' :: 'n' :: '-' :: trimList s.toList)) := by
  constructor
  · unfold OrinIdScannerB.parseOrinId
    rw [parseListB_digit _ h]
    rfl
  · unfold OrinIdScanner.parseOrinId
    rw [parseListA_digit _ h]
    rfl

/-- Witness for C5's amended theorem at the spec's example input. -/
theorem numericId_classification_witness :
    isDigit13 (trimList "1234567890123".toList) = true ∧
    (OrinIdScannerB.parseOrinId "1234567890123" =
      some (String.mk (trimList "1234567890123".toList)) ∧
    OrinIdScanner.parseOrinId "1234567890123" =
      some (String.mk ('o' :: 'r' :: 'i' :: 'n' :: '-' ::
        trimList "1234567890123".toList))) :=
  ⟨by decide, numericId_classification "1234567890123" (by decide)⟩

/-- C6 counterexample: the OrinIdScanner.tsx classifier does not strip the
`orin` prefix from `"orin-test1"` — it returns `"orin-test1"` itself. -/
theorem orinPrefix_kept_cex :
    OrinIdScanner.parseOrinId "orin-test1" = some "orin-test1" ∧
    some "orin-test1" ≠ some "test1" :=
  ⟨rfl, by decide⟩

/-- C6 amended: for every input whose trimmed form starts with a
case-insensitive `orin` prefix, the part_000 variant returns the remainder
with the prefix (and one following hyphen) stripped, while the
OrinIdScanner.tsx variant returns a lowercased identifier that still starts
with `orin`. -/
theorem orinPrefix_classification (s : String)
    (h : startsWithOrinCI (trimList s.toList) = true) :
    OrinIdScannerB.parseOrinId s =
      some (String.mk (stripHyphen ((trimList s.toList).drop 4))) ∧
    ∃ r, OrinIdScanner.parseOrinId s = some (String.mk r) ∧
      r.take 4 = ['o', 'r', 'i', 'n'] := by
  constructor
  · unfold OrinIdScannerB.parseOrinId
    rw [parseListB_orin _ h]
    rfl
  · obtain ⟨r, hr, ht⟩ := parseListA_orin s.toList h
    refine ⟨r, ?_, ht⟩
    unfold OrinIdScanner.parseOrinId
    rw [hr]
    rfl

/-- Witness for C6's amended theorem at the spec's example input. -/
theorem orinPrefix_classification_witness :
    startsWithOrinCI (trimList "orin-test1".toList) = true ∧
    (OrinIdScannerB.parseOrinId "orin-test1" =
      some (String.mk (stripHyphen ((trimList "orin-test1".toList).drop 4))) ∧
    ∃ r, OrinIdScanner.parseOrinId "orin-test1" = some (String.mk r) ∧
      r.take 4 = ['o', 'r', 'i', 'n']) :=
  ⟨by decide, orinPrefix_classification "orin-test1" (by decide)⟩

/-- C7 counterexample: a parsed object that contains both the challengeId
and the nonce field, with the challengeId present but empty, is classified
Invalid — the decode callback tests JS truthiness, not field presence, so
the accepts-iff-both-fields-present claim fails. -/
theorem classify_falsy_field_cex :
    Json.hasField (Json.obj [("challengeId", Json.str ""),
      ("nonce", Json.str "xyz")]) "challengeId" = true ∧
    Json.hasField (Json.obj [("challengeId", Json.str ""),
      ("nonce", Json.str "xyz")]) "nonce" = true ∧
    classifyChallenge (some (Json.obj [("challengeId", Json.str ""),
      ("nonce", Json.str "xyz")])) = ChallengeResult.invalid :=
  ⟨rfl, rfl, rfl⟩

/-- C7 amended: the classifier accepts a decoded text iff parsing succeeds
and both the challengeId and nonce fields are present with JS-truthy values
(a present-but-falsy field, e.g. an empty string, counts as missing), in
which case it produces the two field values; parse failure and every other
parsed value yield Invalid, and the classification is a total function
(never raises).  The spec's three examples are included. -/
theorem classifyChallenge_characterization :
    (∀ p : Option Json,
      (∃ c n, classifyChallenge p = ChallengeResult.challenge c n) ↔
      (∃ j, p = some j ∧ jsTruthy (j.getField "challengeId") = true ∧
        jsTruthy (j.getField "nonce") = true)) ∧
    classifyChallenge (some (Json.obj [("challengeId", Json.str "abc"),
      ("nonce", Json.str "xyz")])) =
      ChallengeResult.challenge (Json.str "abc") (Json.str "xyz") ∧
    classifyChallenge (some (Json.obj [("foo", Json.str "bar")])) =
      ChallengeResult.invalid ∧
    classifyChallenge none = ChallengeResult.invalid := by
  refine ⟨?_, rfl, rfl, rfl⟩
  intro p
  constructor
  · rintro ⟨c, n, hc⟩
    cases p with
    | none => exact absurd hc (by simp [classifyChallenge])
    | some j =>
      cases j with
      | null => exact absurd hc (by simp [classifyChallenge])
      | bool b =>
        exact absurd hc (by simp [classifyChallenge, Json.getField, jsTruthy])
      | num m =>
        exact absurd hc (by simp [classifyChallenge, Json.getField, jsTruthy])
      | str t =>
        exact absurd hc (by simp [classifyChallenge, Json.getField, jsTruthy])
      | arr xs =>
        exact absurd hc (by simp [classifyChallenge, Json.getField, jsTruthy])
      | obj fs =>
        refine ⟨Json.obj fs, rfl, ?_, ?_⟩
        · by_contra hbad
          simp only [Bool.not_eq_true] at hbad
          simp [classifyChallenge, hbad] at hc
        · by_contra hbad
          simp only [Bool.not_eq_true] at hbad
          simp [classifyChallenge, hbad] at hc
  · rintro ⟨j, rfl, h1, h2⟩
    cases j with
    | null => simp [jsTruthy, Json.getField] at h1
    | bool b => simp [jsTruthy, Json.getField] at h1
    | num m => simp [jsTruthy, Json.getField] at h1
    | str t => simp [jsTruthy, Json.getField] at h1
    | arr xs => simp [jsTruthy, Json.getField] at h1
    | obj fs =>
      refine ⟨((Json.obj fs).getField "challengeId").getD Json.null,
        ((Json.obj fs).getField "nonce").getD Json.null, ?_⟩
      simp [classifyChallenge, h1, h2]

end QRLogin
